import Mathlib

/-!
Shallow embedding of the query-dispatch and result-rendering pipeline of the
Rusql MySQL console client (src/main.rs), together with proofs about it.

Modelling conventions:
* Rust `String`/`&str` values are Lean `String`s; the byte-level operations
  the source uses (`trim`, `to_lowercase`, `starts_with`, `ends_with`,
  `trim_matches`, byte slicing) are embedded as character-list operations,
  which coincide with the Rust ones on the ASCII data the client handles.
* `f32`/`f64` cells appear in the source only through `to_string()`; the
  corresponding variants therefore carry that decimal rendering directly.
* Wall-clock elapsed time is not modellable; the elapsed component of the
  summary lines is threaded through as an uninterpreted string parameter.
* The external executor (the `mysql` crate connection) is a record of
  response functions; the connection's `affected_rows()` counter is explicit
  state, updated by query execution exactly as the crate updates it.
-/

/-- Byte value of an ASCII apostrophe, used by the database-changed message. -/
def squote : String := String.singleton (Char.ofNat 39)

/-- Whitespace test matching `char::is_whitespace` on the ASCII range. -/
def isWs (c : Char) : Bool := c = ' ' || c = '\t' || c = '\n' || c = '\r'

/-- Embedding of Rust `str::trim` on a character list: drop leading and
trailing whitespace. -/
def rustTrimL (cs : List Char) : List Char :=
  ((cs.dropWhile isWs).reverse.dropWhile isWs).reverse

/-- Embedding of Rust `str::trim`. -/
def rustTrim (s : String) : String := String.mk (rustTrimL s.data)

/-- ASCII lowercasing of one character, matching `str::to_lowercase` on the
ASCII range. -/
def asciiLower (c : Char) : Char :=
  if 'A' ≤ c && c ≤ 'Z' then Char.ofNat (c.toNat + 32) else c

/-- Embedding of Rust `str::to_lowercase` (ASCII range). -/
def rustLower (s : String) : String := String.mk (s.data.map asciiLower)

/-- Tests whether the first list starts with the second, matching
`str::starts_with`. -/
def startsWithL : List Char → List Char → Bool
  | _, [] => true
  | [], _ :: _ => false
  | c :: cs, p :: ps => c = p && startsWithL cs ps

/-- Embedding of `str::starts_with` for string patterns. -/
def rustStartsWith (s pat : String) : Bool := startsWithL s.data pat.data

/-- Embedding of `str::ends_with(';')`: the last character is a semicolon. -/
def endsWithSemi (s : String) : Bool := s.data.getLast? = some ';'

/-- Embedding of `str::trim_matches(';')`: strip all leading and trailing
semicolon characters. -/
def trimMatchesSemi (s : String) : String :=
  String.mk (((s.data.dropWhile (· = ';')).reverse.dropWhile (· = ';')).reverse)

/-- Embedding of Rust byte slicing `[4..]` on the ASCII data in play: drop the
first four characters. -/
def drop4 (s : String) : String := String.mk (s.data.drop 4)

/-- Decode error attached to one cell slot (`FromValueError`); the payload is
an uninterpreted tag. -/
structure DecodeError where
  code : Nat
deriving DecidableEq, Repr

/-- Embedding of `mysql::Value`, the tagged union over database cell values.
The `Float` and `Double` variants carry the decimal string their
`to_string()` produces, the only way the source consumes them. -/
inductive Value where
  | NULL : Value
  | Bytes (bytes : List Nat) : Value
  | Int (n : Int) : Value
  | UInt (n : Nat) : Value
  | Float (repr10 : String) : Value
  | Double (repr10 : String) : Value
  | Date (year month day hour minute second micros : Nat) : Value
  | Time (negative : Bool) (days hours minutes seconds micros : Nat) : Value
deriving DecidableEq, Repr

/-- Lossy UTF-8 decoding of a byte list (`String::from_utf8_lossy`): invalid
sequences are replaced with U+FFFD instead of failing; the decoder is total
by construction. Replacement granularity is one byte per invalid prefix. -/
def utf8Lossy : List Nat → List Char
  | [] => []
  | b0 :: rest =>
    if b0 < 0x80 then
      Char.ofNat b0 :: utf8Lossy rest
    else if 0xC2 ≤ b0 && b0 ≤ 0xDF then
      match rest with
      | b1 :: rest2 =>
        if 0x80 ≤ b1 && b1 ≤ 0xBF then
          Char.ofNat (((b0 - 0xC0) * 64) + (b1 - 0x80)) :: utf8Lossy rest2
        else
          Char.ofNat 0xFFFD :: utf8Lossy (b1 :: rest2)
      | [] => [Char.ofNat 0xFFFD]
    else if 0xE0 ≤ b0 && b0 ≤ 0xEF then
      match rest with
      | b1 :: b2 :: rest3 =>
        if 0x80 ≤ b1 && b1 ≤ 0xBF && 0x80 ≤ b2 && b2 ≤ 0xBF then
          let cp := ((b0 - 0xE0) * 4096) + ((b1 - 0x80) * 64) + (b2 - 0x80)
          if cp < 0x800 || (0xD800 ≤ cp && cp ≤ 0xDFFF) then
            Char.ofNat 0xFFFD :: utf8Lossy (b1 :: b2 :: rest3)
          else
            Char.ofNat cp :: utf8Lossy rest3
        else
          Char.ofNat 0xFFFD :: utf8Lossy (b1 :: b2 :: rest3)
      | _ => [Char.ofNat 0xFFFD]
    else if 0xF0 ≤ b0 && b0 ≤ 0xF4 then
      match rest with
      | b1 :: b2 :: b3 :: rest4 =>
        if 0x80 ≤ b1 && b1 ≤ 0xBF && 0x80 ≤ b2 && b2 ≤ 0xBF && 0x80 ≤ b3 && b3 ≤ 0xBF then
          let cp := ((b0 - 0xF0) * 262144) + ((b1 - 0x80) * 4096) + ((b2 - 0x80) * 64) + (b3 - 0x80)
          if cp < 0x10000 || 0x10FFFF < cp then
            Char.ofNat 0xFFFD :: utf8Lossy (b1 :: b2 :: b3 :: rest4)
          else
            Char.ofNat cp :: utf8Lossy rest4
        else
          Char.ofNat 0xFFFD :: utf8Lossy (b1 :: b2 :: b3 :: rest4)
      | _ => [Char.ofNat 0xFFFD]
    else
      Char.ofNat 0xFFFD :: utf8Lossy rest
termination_by l => l.length
decreasing_by all_goals (simp_all [List.length_cons]; try omega)

/-- Lossy UTF-8 decoding producing a `String`. -/
def utf8LossyStr (bs : List Nat) : String := String.mk (utf8Lossy bs)

/-- Zero-padding to a given width, embedding the Rust format specs
`{:04}` and `{:02}` on unsigned integers: pad with leading zeros when the
decimal representation is shorter than the width, never truncate. -/
def padZeros (w : Nat) (n : Nat) : String :=
  let s := Nat.repr n
  if s.length < w then String.mk (List.replicate (w - s.length) '0') ++ s else s

/-- Per-variant cell formatting shared verbatim by the two render sites of
`execute_query` (the width pass at lines 167-186 and the display pass at
lines 199-212 use identical format expressions for every `Ok` variant). -/
def fmtValue : Value → String
  | .NULL => "NULL"
  | .Bytes bs => utf8LossyStr bs
  | .Int n => Int.repr n
  | .UInt n => Nat.repr n
  | .Float r => r
  | .Double r => r
  | .Date y mo d h mi s _ =>
      padZeros 4 y ++ "-" ++ padZeros 2 mo ++ "-" ++ padZeros 2 d ++ " " ++
      padZeros 2 h ++ ":" ++ padZeros 2 mi ++ ":" ++ padZeros 2 s
  | .Time neg d h mi s _ =>
      (if neg then "-" else "") ++ Nat.repr d ++ "." ++
      padZeros 2 h ++ ":" ++ padZeros 2 mi ++ ":" ++ padZeros 2 s

/-- Decidable equality for `Except`, used to evaluate the theorems below on
concrete rows. -/
instance exceptDecEq {e a : Type} [DecidableEq e] [DecidableEq a] :
    DecidableEq (Except e a)
  | .ok x, .ok y =>
    if h : x = y then isTrue (by rw [h]) else isFalse (by simp [h])
  | .ok _, .error _ => isFalse (by simp)
  | .error _, .ok _ => isFalse (by simp)
  | .error x, .error y =>
    if h : x = y then isTrue (by rw [h]) else isFalse (by simp [h])

/-- One result row: the cell slots of a `mysql::Row`; `get_opt` on an index
beyond the row length reports an absent slot. -/
abbrev Row : Type := List (Except DecodeError Value)

/-- Embedding of `row.get_opt(i)`: `none` when the index is out of range,
otherwise the slot with its possible decode error. -/
def getOpt (r : Row) (i : Nat) : Option (Except DecodeError Value) :=
  List.get? r i

/-- Width-pass rendering of one slot (`execute_query` lines 167-186): decode
errors render as the literal `ERROR`, absent slots as `NULL`. -/
def renderUnstyled (slot : Option (Except DecodeError Value)) : String :=
  match slot with
  | some (.ok v) => fmtValue v
  | some (.error _) => "ERROR"
  | none => "NULL"

/-- Display-pass rendering of one slot (`execute_query` lines 196-216): the
unstyled display string together with the null flag. Only `Some(Ok(v))`
reaches the per-variant arms; an absent slot or a decode error falls through
the catch-all arm to `("NULL", true)`. -/
def renderDisplay (slot : Option (Except DecodeError Value)) : String × Bool :=
  match slot with
  | some (.ok .NULL) => ("NULL", true)
  | some (.ok v) => (fmtValue v, false)
  | _ => ("NULL", true)

/-- ANSI wrapper emitted by `colored::bright_white`. -/
def brightWhite (s : String) : String := "\x1b[97m" ++ s ++ "\x1b[0m"

/-- ANSI wrapper emitted by `colored::bright_red`. -/
def brightRed (s : String) : String := "\x1b[91m" ++ s ++ "\x1b[0m"

/-- ANSI wrapper emitted by `colored::bright_cyan`. -/
def brightCyan (s : String) : String := "\x1b[96m" ++ s ++ "\x1b[0m"

/-- Styled cell text of the display pass (`execute_query` lines 218-226). -/
def styleCell (useColors : Bool) (value : String) (isNull : Bool) : String :=
  if useColors then
    if isNull then brightRed "NULL" else brightWhite value
  else
    if isNull then "NULL" else value

/-- Inner loop of the width pass (`execute_query` lines 165-189): walk the
width vector updating each entry in index order to the max of its current
value and the length of the unstyled rendering of that column of the row.
The source guard `i < max_widths.len()` is always true because the loop
bound and the vector length are both the column count. -/
def pass1Go (row : Row) : Nat → List Nat → List Nat
  | _, [] => []
  | i, w :: ws =>
      (max w (renderUnstyled (getOpt row i)).length) :: pass1Go row (i + 1) ws

/-- Width-pass update contributed by one row. -/
def pass1Row (row : Row) (ws : List Nat) : List Nat := pass1Go row 0 ws

/-- Two-pass width computation (`execute_query` lines 155-190): initialize
each column width to the column-name length, then widen over all rows using
the unstyled renderings. -/
def maxWidths (columns : List String) (rows : List Row) : List Nat :=
  rows.foldl (fun ws row => pass1Row row ws) (columns.map String.length)

/-- Rendered table data assembled by `execute_query`: styled header cells,
the computed column widths, and the styled body cells. -/
structure TableData where
  headers : List String
  widths : List Nat
  cells : List (List String)
deriving DecidableEq, Repr

/-- Table assembly of `execute_query` (lines 142-232): styled headers
(lines 143-153), width computation (lines 155-190), then the display pass
over every row and column (lines 193-231). -/
def buildTable (useColors : Bool) (columns : List String) (rows : List Row) :
    TableData :=
  let headers := columns.map (fun c => if useColors then brightCyan c else c)
  let widths := maxWidths columns rows
  let cells := rows.map (fun row =>
    (List.range columns.length).map (fun i =>
      let rendered := renderDisplay (getOpt row i)
      styleCell useColors rendered.1 rendered.2))
  ⟨headers, widths, cells⟩

/-- Console directive produced by classification of a complete statement. -/
inductive Directive where
  | ShowStatus : Directive
  | ClearScreen : Directive
  | SelectDatabase (name : String) : Directive
  | ForwardToServer (stmt : String) : Directive
deriving DecidableEq, Repr

/-- Statement classification as performed inline by `execute_query`, in
source order with first match winning: the trimmed lowercased input equal to
`status` (line 86), equal to `clear` or backslash-c (line 87), starting with
`use ` (line 98, the name being the trimmed original after the first four
bytes with surrounding whitespace trimmed and then semicolons stripped,
line 99), and otherwise pass-through of the original input (line 111). -/
def classify (query : String) : Directive :=
  let t := rustLower (rustTrim query)
  if t = "status" then .ShowStatus
  else if t = "clear" ∨ t = "\\c" then .ClearScreen
  else if rustStartsWith t "use " then
    .SelectDatabase (trimMatchesSemi (rustTrim (drop4 (rustTrim query))))
  else .ForwardToServer query

/-- One step of the interactive loop on a successful readline (`main` lines
375-401): append the line and a space to the buffer; when the trimmed line
ends with the terminator, dispatch the buffer and clear it. The first
component is the dispatched statement, when any. -/
def stepLine (buf line : String) : Option String × String :=
  let buf2 := buf ++ line ++ " "
  if endsWithSemi (rustTrim line) then (some buf2, "") else (none, buf2)

/-- Statements dispatched while processing a sequence of input lines from a
given starting buffer. -/
def processLines : String → List String → List String
  | _, [] => []
  | buf, l :: ls =>
    match stepLine buf l with
    | (some q, buf2) => q :: processLines buf2 ls
    | (none, buf2) => processLines buf2 ls

/-- Tests whether one input line, entered with an empty buffer, is dispatched
and handled as a local console directive (status or clear) rather than being
forwarded or merely accumulated. -/
def handledLocally (line : String) : Bool :=
  match stepLine "" line with
  | (some q, _) =>
    (match classify q with
     | .ShowStatus => true
     | .ClearScreen => true
     | _ => false)
  | (none, _) => false

/-- Session state owned by `MySQLClient`: the fields the spec calls Session
State (current database, display host and port, color preference). -/
structure SessionState where
  currentDb : Option String
  host : String
  port : Nat
  useColors : Bool
deriving DecidableEq, Repr

/-- Connection-side state relevant to the embedding: the `affected_rows()`
counter of the `mysql` connection, which reflects the most recently executed
statement. -/
structure ConnState where
  affectedRows : Nat
deriving DecidableEq, Repr

/-- Executor reply for one forwarded statement: column metadata, the
materialized rows, and the affected-row count the connection counter holds
after this statement executes. -/
structure QueryReply where
  columns : List String
  rows : List Row
  affected : Nat

/-- External database executor: responses to database switches, forwarded
statements, and the two scalar status lookups (`SELECT VERSION()` and the
client character set). A `query_first` reply of `none` models an empty
result set; `Except.error` models a failed query. -/
structure Executor where
  selectDb : String → Except String Unit
  runQuery : String → Except String QueryReply
  versionLookup : Except String (Option String)
  charsetLookup : Except String (Option String)

/-- Outcome payload of `execute_query` when it returns a `QueryResult`. -/
inductive OutcomeData where
  | resultTable (t : TableData) (summary : String) : OutcomeData
  | statusTable (rows : List (String × String)) : OutcomeData

/-- Result of one `execute_query` call: the lines printed directly, the
returned value (error, nothing, or a query result), and the session and
connection state afterwards. -/
structure ExecResult where
  printed : List String
  outcome : Except String (Option OutcomeData)
  state : SessionState
  conn : ConnState

/-- Message printed for a non-query statement (`execute_query` lines
119-124); the elapsed component is the uninterpreted wall-clock string. -/
def queryOkMsg (n : Nat) (elapsed : String) : String :=
  "Query OK, " ++ Nat.repr n ++ " " ++ (if n = 1 then "row" else "rows") ++
  " affected (" ++ elapsed ++ " sec)"

/-- Summary line of a result table (`execute_query` lines 236-241); the row
count is the table length minus the header row. -/
def summaryMsg (n : Nat) (elapsed : String) : String :=
  Nat.repr n ++ " " ++ (if n = 1 then "row" else "rows") ++
  " in set (" ++ elapsed ++ " sec)"

/-- Confirmation printed on a successful database switch (`execute_query`
line 103). -/
def dbChangedMsg (db : String) : String :=
  "Database changed to " ++ squote ++ db ++ squote

/-- Embedding of `show_status` (lines 246-285): the version lookup runs
first and its failure propagates immediately (the `?` operator); on success
its missing value defaults to the empty string; then the three fixed rows
are added and the charset lookup runs, its failure again propagating; the
result is the four label/value rows. -/
def showStatus (vq cq : Except String (Option String)) (st : SessionState) :
    Except String (List (String × String)) :=
  match vq with
  | .error e => .error e
  | .ok v =>
    let version := v.getD ""
    match cq with
    | .error e => .error e
    | .ok c =>
      let charset := c.getD ""
      .ok [("Server version:", version),
           ("Server:", st.host ++ ":" ++ Nat.repr st.port),
           ("Current database:", (st.currentDb).getD "None"),
           ("Character set:", charset)]

/-- Embedding of `execute_query` (lines 83-244). The inline special-command
and `use `-prefix tests are factored through `classify`, which performs the
same tests in the same order. In the forward path the source reads the
connection's `affected_rows()` counter before executing the statement
(line 110), then executes it (line 111), which replaces the counter with the
new statement's count; an empty column list takes the non-query branch. -/
def executeQuery (ex : Executor) (st : SessionState) (conn : ConnState)
    (query elapsed : String) : ExecResult :=
  match classify query with
  | .ShowStatus =>
    (match showStatus ex.versionLookup ex.charsetLookup st with
     | .ok rows => ⟨[], .ok (some (.statusTable rows)), st, conn⟩
     | .error e => ⟨[], .error e, st, conn⟩)
  | .ClearScreen => ⟨["\x1b[2J\x1b[1;1H"], .ok none, st, conn⟩
  | .SelectDatabase db =>
    (match ex.selectDb db with
     | .ok _ =>
        ⟨[dbChangedMsg db], .ok none, { st with currentDb := some db }, conn⟩
     | .error e => ⟨[], .error e, st, conn⟩)
  | .ForwardToServer stmt =>
    let affectedBefore := conn.affectedRows
    (match ex.runQuery stmt with
     | .error e => ⟨[], .error e, st, conn⟩
     | .ok reply =>
       let conn2 : ConnState := ⟨reply.affected⟩
       if reply.columns.isEmpty then
         if affectedBefore > 0 then
           ⟨[queryOkMsg affectedBefore elapsed], .ok none, st, conn2⟩
         else
           ⟨[], .ok none, st, conn2⟩
       else
         let t := buildTable st.useColors reply.columns reply.rows
         ⟨[], .ok (some (.resultTable t (summaryMsg reply.rows.length elapsed))),
          st, conn2⟩)

/-- C1 counterexample: at the display site, a cell slot carrying a decode
error is rendered as NULL with the null flag set, not as the literal ERROR
with the flag clear. -/
theorem c1_counterexample :
    ¬ ((renderDisplay (some (Except.error ⟨0⟩))).1 = "ERROR"
       ∧ (renderDisplay (some (Except.error ⟨0⟩))).2 = false) := by
  decide

/-- C1 (amended): a decode error on a cell is always recovered locally by
the total renderers; the width pass renders it as the literal ERROR, while
the display pass renders it as NULL with the null flag set. -/
theorem c1_decode_error_local (e : DecodeError) :
    renderUnstyled (some (Except.error e)) = "ERROR"
    ∧ renderDisplay (some (Except.error e)) = ("NULL", true) :=
  ⟨rfl, rfl⟩

/-- C4 counterexample: the line status entered at an empty buffer is not
dispatched by the interactive loop because its trimmed content lacks the
terminator, so it is not recognized or handled as a local directive. -/
theorem c4_counterexample :
    (stepLine "" "status").1 = none ∧ handledLocally "status" = false := by
  decide

/-- C4 (amended): in the interactive loop a line whose trimmed content does
not end with the terminator is never dispatched, so bare status, clear and
backslash-c are not recognized there; with a terminator the dispatched
buffer keeps the semicolon, fails the exact match, and is forwarded; the
directives are recognized only when the statement reaches execute_query
directly with exactly that trimmed content, as in one-shot mode. -/
theorem c4_local_directives (l : String)
    (h : endsWithSemi (rustTrim l) = false) :
    (stepLine "" l).1 = none
    ∧ handledLocally "status" = false
    ∧ handledLocally "status;" = false
    ∧ handledLocally "clear;" = false
    ∧ classify "status" = Directive.ShowStatus
    ∧ classify "clear" = Directive.ClearScreen
    ∧ classify "\\c" = Directive.ClearScreen := by
  refine ⟨?_, by decide, by decide, by decide, by decide, by decide, by decide⟩
  simp [stepLine, h]

/-- C4 witness: the amended statement evaluated at the bare status line. -/
theorem c4_witness :
    endsWithSemi (rustTrim "status") = false
    ∧ ((stepLine "" "status").1 = none
       ∧ handledLocally "status" = false
       ∧ handledLocally "status;" = false
       ∧ handledLocally "clear;" = false
       ∧ classify "status" = Directive.ShowStatus
       ∧ classify "clear" = Directive.ClearScreen
       ∧ classify "\\c" = Directive.ClearScreen) :=
  ⟨by decide, c4_local_directives "status" (by decide)⟩

/-- C5 counterexample: on an input with a space between the database name
and the terminator, classification keeps that space in the name, so the
surrounding whitespace is not all trimmed as the claim states. -/
theorem c5_counterexample :
    classify "use sales ;" = Directive.SelectDatabase "sales "
    ∧ Directive.SelectDatabase "sales " ≠ Directive.SelectDatabase "sales" := by
  decide

/-- C5 (amended): an input whose trimmed form starts with use
case-insensitively classifies as SelectDatabase of the remainder after the
first four bytes, with surrounding whitespace trimmed first and leading and
trailing semicolons stripped afterwards, so whitespace between the name and
the terminator is preserved; the three example classifications hold. -/
theorem c5_classification (q : String)
    (h : rustStartsWith (rustLower (rustTrim q)) "use " = true) :
    classify q
      = Directive.SelectDatabase (trimMatchesSemi (rustTrim (drop4 (rustTrim q))))
    ∧ classify "USE  sales;" = Directive.SelectDatabase "sales"
    ∧ classify "STATUS" = Directive.ShowStatus
    ∧ classify "select 1;" = Directive.ForwardToServer "select 1;" := by
  refine ⟨?_, by decide, by decide, by decide⟩
  have h1 : rustLower (rustTrim q) ≠ "status" := by
    intro hq; rw [hq] at h; exact absurd h (by decide)
  have h2 : rustLower (rustTrim q) ≠ "clear" := by
    intro hq; rw [hq] at h; exact absurd h (by decide)
  have h3 : rustLower (rustTrim q) ≠ "\\c" := by
    intro hq; rw [hq] at h; exact absurd h (by decide)
  simp [classify, h1, h2, h3, h]

/-- C5 witness: the amended statement evaluated at the first example. -/
theorem c5_witness :
    rustStartsWith (rustLower (rustTrim "USE  sales;")) "use " = true
    ∧ (classify "USE  sales;"
        = Directive.SelectDatabase
            (trimMatchesSemi (rustTrim (drop4 (rustTrim "USE  sales;"))))
       ∧ classify "USE  sales;" = Directive.SelectDatabase "sales"
       ∧ classify "STATUS" = Directive.ShowStatus
       ∧ classify "select 1;" = Directive.ForwardToServer "select 1;") :=
  ⟨by decide, c5_classification "USE  sales;" (by decide)⟩

/-- C7: display-pass rendering is a total function of the cell slot, and the
null flag it produces is true exactly when the slot is absent, carries a
decode error, or holds the Null variant. -/
theorem c7_null_flag (slot : Option (Except DecodeError Value)) :
    (renderDisplay slot).2 = true ↔
      (slot = none ∨ (∃ e, slot = some (Except.error e))
       ∨ slot = some (Except.ok Value.NULL)) := by
  match slot with
  | none => simp [renderDisplay]
  | some (.error e) => simp [renderDisplay]
  | some (.ok v) => cases v <;> simp [renderDisplay]

/-- C8: DateTime cells render in the fixed zero-padded format with the
sub-second component dropped, Duration cells render with an unpadded day
count and a sign prefix exactly when negative, and the two example
renderings hold. -/
theorem c8_datetime_duration_format :
    fmtValue (Value.Time true 2 3 4 5 0) = "-2.03:04:05"
    ∧ fmtValue (Value.Date 2024 1 2 3 4 5 0) = "2024-01-02 03:04:05"
    ∧ (∀ y mo d h mi s u1 u2, fmtValue (Value.Date y mo d h mi s u1)
        = fmtValue (Value.Date y mo d h mi s u2))
    ∧ (∀ neg d h mi s u1 u2, fmtValue (Value.Time neg d h mi s u1)
        = fmtValue (Value.Time neg d h mi s u2))
    ∧ (∀ d h mi s u, fmtValue (Value.Time true d h mi s u)
        = "-" ++ fmtValue (Value.Time false d h mi s u))
    ∧ (∀ d h mi s u, fmtValue (Value.Time false d h mi s u)
        = Nat.repr d ++ "." ++ padZeros 2 h ++ ":" ++ padZeros 2 mi ++ ":"
          ++ padZeros 2 s) := by
  refine ⟨by decide, by decide, fun y mo d h mi s u1 u2 => rfl,
    fun neg d h mi s u1 u2 => rfl, fun d h mi s u => ?_, fun d h mi s u => ?_⟩
  · simp [fmtValue, String.append_assoc]
  · simp [fmtValue]

/-- C10 counterexample: when the server-version lookup fails, show_status
propagates that failure as the result of the whole directive, without
consulting the successful character-set lookup. -/
theorem c10_counterexample :
    showStatus (Except.error "e") (Except.ok (some "utf8mb4"))
      ⟨none, "localhost", 3306, true⟩ = Except.error "e" := rfl

/-- C10 (amended): the two lookups are not independent: a failing version
lookup aborts the directive before the charset lookup is consulted, and a
failing charset lookup aborts it as well, the executor error becoming the
result of the directive; only a lookup succeeding with no value renders as
an empty row instead of failing. -/
theorem c10_lookup_coupling (st : SessionState) (v c : Option String)
    (e : String) :
    showStatus (Except.ok v) (Except.ok c) st
      = Except.ok [("Server version:", v.getD ""),
                   ("Server:", st.host ++ ":" ++ Nat.repr st.port),
                   ("Current database:", (st.currentDb).getD "None"),
                   ("Character set:", c.getD "")]
    ∧ (∀ cq, showStatus (Except.error e) cq st = Except.error e)
    ∧ showStatus (Except.ok v) (Except.error e) st = Except.error e :=
  ⟨rfl, fun _ => rfl, rfl⟩

/-- Executor for the affected-rows scenario: the forwarded statement reports
no column metadata and affects zero rows. -/
def exC3 : Executor :=
  ⟨fun _ => Except.ok (), fun _ => Except.ok ⟨[], [], 0⟩,
   Except.ok none, Except.ok none⟩

/-- Session for the affected-rows scenario. -/
def stC3 : SessionState := ⟨none, "localhost", 3306, false⟩

/-- C3: the code evaluated at the failing input: the previous statement left
the connection counter at one, the just-executed statement reports no
columns and affects zero rows, yet the session prints the Query OK line with
the stale count of one, because the counter is read before the statement
executes. -/
theorem c3_stale_affected_count :
    exC3.runQuery "delete from t;" = Except.ok ⟨[], [], 0⟩
    ∧ (executeQuery exC3 stC3 ⟨1⟩ "delete from t;" "0.00").printed
        = ["Query OK, 1 row affected (0.00 sec)"]
    ∧ (executeQuery exC3 stC3 ⟨1⟩ "delete from t;" "0.00").conn = ⟨0⟩ :=
  ⟨rfl, rfl, rfl⟩

/-- C6: per interactive line, a dispatch happens exactly when the trimmed
line ends with the terminator, the buffer after the step is empty exactly
on dispatch and otherwise carries the appended line, and over any sequence
of lines the number of dispatched statements equals the number of lines
whose trimmed content ends with the terminator. -/
theorem c6_accumulator (buf line : String) (lines : List String) :
    ((stepLine buf line).1.isSome = endsWithSemi (rustTrim line))
    ∧ ((stepLine buf line).2
        = if endsWithSemi (rustTrim line) = true then ""
          else buf ++ line ++ " ")
    ∧ (processLines buf lines).length
        = lines.countP (fun l => endsWithSemi (rustTrim l)) := by
  refine ⟨?_, ?_, ?_⟩
  · cases h : endsWithSemi (rustTrim line) <;> simp [stepLine, h]
  · cases h : endsWithSemi (rustTrim line) <;> simp [stepLine, h]
  · induction lines generalizing buf with
    | nil => simp [processLines]
    | cons l ls ih =>
      cases h : endsWithSemi (rustTrim l) <;>
        simp [processLines, stepLine, h, List.countP_cons, ih]

/-- C9: session state is mutated exactly by a successful database-selection
directive: on a successful switch the current database is updated, on a
failed switch the session state is unchanged and the executor error is
surfaced unchanged, and every other directive leaves session state
unchanged. -/
theorem c9_state_mutation (ex : Executor) (st : SessionState)
    (conn : ConnState) (q el : String) :
    (match classify q with
     | Directive.SelectDatabase name =>
       (match ex.selectDb name with
        | Except.ok _ =>
            (executeQuery ex st conn q el).state
              = { st with currentDb := some name }
        | Except.error e =>
            (executeQuery ex st conn q el).state = st
            ∧ (executeQuery ex st conn q el).outcome = Except.error e)
     | _ => (executeQuery ex st conn q el).state = st) := by
  rcases hc : classify q with _ | _ | name | stmt
  · simp only [hc]
    rcases h2 : showStatus ex.versionLookup ex.charsetLookup st with e | rows <;>
      simp [executeQuery, hc, h2]
  · simp [executeQuery, hc]
  · simp only [hc]
    rcases h2 : ex.selectDb name with e | u <;> simp [executeQuery, hc, h2]
  · simp only [hc]
    rcases h2 : ex.runQuery stmt with e | reply
    · simp [executeQuery, hc, h2]
    · by_cases hempty : reply.columns.isEmpty = true <;>
        by_cases haff : conn.affectedRows > 0 <;>
        simp [executeQuery, hc, h2, hempty, haff]

/-- The width-pass walk preserves the length of the width vector. -/
theorem pass1Go_length (row : Row) (i : Nat) (ws : List Nat) :
    (pass1Go row i ws).length = ws.length := by
  induction ws generalizing i with
  | nil => rfl
  | cons w ws ih => simp [pass1Go, ih]

/-- The width-pass walk never shrinks an entry of the width vector. -/
theorem pass1Go_mono (row : Row) (i j : Nat) (ws : List Nat) :
    ws.getD j 0 ≤ (pass1Go row i ws).getD j 0 := by
  induction ws generalizing i j with
  | nil => simp [pass1Go]
  | cons w ws ih =>
    cases j with
    | zero => simp [pass1Go]
    | succ j => simpa [pass1Go] using ih (i + 1) j

/-- After the width-pass walk starting at offset `i`, entry `j` dominates
the unstyled rendering length of the cell at column `i + j` of the row. -/
theorem pass1Go_fit (row : Row) (i j : Nat) (ws : List Nat)
    (hj : j < ws.length) :
    (renderUnstyled (getOpt row (i + j))).length
      ≤ (pass1Go row i ws).getD j 0 := by
  induction ws generalizing i j with
  | nil => simp at hj
  | cons w ws ih =>
    cases j with
    | zero => simp [pass1Go]
    | succ j =>
      have hj2 : j < ws.length := by simpa using hj
      have harith : i + (j + 1) = (i + 1) + j := by omega
      rw [harith]
      simpa [pass1Go] using ih (i + 1) j hj2

/-- Folding the width pass over rows preserves the vector length. -/
theorem widths_foldl_length (rs : List Row) (ws : List Nat) :
    (rs.foldl (fun ws row => pass1Row row ws) ws).length = ws.length := by
  induction rs generalizing ws with
  | nil => rfl
  | cons r rs ih =>
    simp only [List.foldl_cons]
    rw [ih, pass1Row, pass1Go_length]

/-- Folding the width pass over rows never shrinks an entry. -/
theorem widths_foldl_mono (rs : List Row) (ws : List Nat) (j : Nat) :
    ws.getD j 0 ≤ (rs.foldl (fun ws row => pass1Row row ws) ws).getD j 0 := by
  induction rs generalizing ws with
  | nil => simp
  | cons r rs ih =>
    simp only [List.foldl_cons]
    exact le_trans (pass1Go_mono r 0 j ws) (ih (pass1Row r ws))

/-- After folding the width pass over all rows, entry `j` dominates the
unstyled rendering length of column `j` of every processed row. -/
theorem widths_foldl_fit (rs : List Row) (ws : List Nat) (row : Row)
    (j : Nat) (hmem : row ∈ rs) (hj : j < ws.length) :
    (renderUnstyled (getOpt row j)).length
      ≤ (rs.foldl (fun ws row => pass1Row row ws) ws).getD j 0 := by
  induction rs generalizing ws with
  | nil => simp at hmem
  | cons r rs ih =>
    simp only [List.foldl_cons]
    rcases List.mem_cons.mp hmem with hEq | hmem2
    · subst hEq
      refine le_trans ?_ (widths_foldl_mono rs (pass1Row row ws) j)
      simpa [pass1Row] using pass1Go_fit row 0 j ws hj
    · have hj2 : j < (pass1Row r ws).length := by
        simpa [pass1Row, pass1Go_length] using hj
      exact ih (pass1Row r ws) hmem2 hj2

/-- Entry `i` of the initial width vector is the length of column name `i`. -/
theorem initWidths_getD (columns : List String) (i : Nat)
    (hi : i < columns.length) :
    (columns.map String.length).getD i 0 = (columns.getD i "").length := by
  induction columns generalizing i with
  | nil => simp at hi
  | cons c cs ih =>
    cases i with
    | zero => simp
    | succ i => simpa using ih i (by simpa using hi)

/-- The string shown at display time is never longer than the unstyled
string the width pass measured for the same slot. -/
theorem renderDisplay_le_unstyled (slot : Option (Except DecodeError Value)) :
    (renderDisplay slot).1.length ≤ (renderUnstyled slot).length := by
  match slot with
  | none => simp [renderDisplay, renderUnstyled]
  | some (.error e) => simp [renderDisplay, renderUnstyled]; decide
  | some (.ok v) => cases v <;> simp [renderDisplay, renderUnstyled, fmtValue]

/-- C2: after the two-pass builder, each column's computed width dominates
the column-name length and the length of every cell string shown in that
column, and the computed widths are identical with and without color. -/
theorem c2_two_pass_widths (columns : List String) (rows : List Row)
    (i : Nat) (row : Row) (hi : i < columns.length) (hrow : row ∈ rows) :
    (columns.getD i "").length ≤ (maxWidths columns rows).getD i 0
    ∧ (renderDisplay (getOpt row i)).1.length
        ≤ (maxWidths columns rows).getD i 0
    ∧ (buildTable true columns rows).widths
        = (buildTable false columns rows).widths := by
  refine ⟨?_, ?_, rfl⟩
  · have h1 := widths_foldl_mono rows (columns.map String.length) i
    rw [initWidths_getD columns i hi] at h1
    simpa [maxWidths] using h1
  · have hlen : i < (columns.map String.length).length := by simpa using hi
    have h2 := widths_foldl_fit rows (columns.map String.length) row i hrow hlen
    exact le_trans (renderDisplay_le_unstyled (getOpt row i))
      (by simpa [maxWidths] using h2)

/-- C2 witness: the width bounds evaluated on a concrete two-column result
set containing an integer cell, a decode-error cell and a short row. -/
theorem c2_witness :
    (0 < (["id", "name"] : List String).length
     ∧ ([Except.ok (Value.Int 5), Except.error ⟨0⟩] : Row)
        ∈ ([[Except.ok (Value.Int 5), Except.error ⟨0⟩], []] : List Row))
    ∧ ((["id", "name"] : List String).getD 0 "").length
        ≤ (maxWidths ["id", "name"]
            [[Except.ok (Value.Int 5), Except.error ⟨0⟩], []]).getD 0 0
    ∧ (renderDisplay (getOpt [Except.ok (Value.Int 5), Except.error ⟨0⟩] 0)).1.length
        ≤ (maxWidths ["id", "name"]
            [[Except.ok (Value.Int 5), Except.error ⟨0⟩], []]).getD 0 0
    ∧ (buildTable true ["id", "name"]
        [[Except.ok (Value.Int 5), Except.error ⟨0⟩], []]).widths
        = (buildTable false ["id", "name"]
            [[Except.ok (Value.Int 5), Except.error ⟨0⟩], []]).widths :=
  ⟨⟨by decide, by decide⟩,
   c2_two_pass_widths ["id", "name"]
     [[Except.ok (Value.Int 5), Except.error ⟨0⟩], []] 0
     [Except.ok (Value.Int 5), Except.error ⟨0⟩] (by decide) (by decide)⟩
